import Mathlib

/-!
Verification of the script execution engine of the automation-browser
repository (src/python-server/script_executor.py), as a shallow embedding.

Browser-backend effects (Selenium waits, clicks, window handles, frame
switches, screenshots) are modelled as oracles supplied through environment
records; the engine code itself — the orchestration loop of
`ScriptExecutor.execute_script`, the locator resolvers `_find_element` and
`_find_element_with_wait`, and the handlers `_handle_select`,
`_handle_execute_in_frame`, `_handle_switch_window` — is translated
control-flow-faithfully. Calls made against the backend are recorded in
explicit traces so that theorems can speak about which lookups were or were
not attempted. Wall-clock time (Python time.time()) is modelled by a
monotone tick counter threaded through the computation: each time.time()
call in the source corresponds to one tick. Error messages that embed a
Python repr of a value are rendered by a fixed deterministic function of
that value.
-/

namespace AutomationBrowser

/-- Locator strategy constants (selenium By). The source uses eight of them. -/
inductive By where
  | id
  | xpath
  | cssSelector
  | className
  | name
  | linkText
  | plinkText
  | tagName
deriving DecidableEq

/-- Wait conditions used by the resolvers (selenium expected_conditions). -/
inductive Cond where
  | presence
  | visibility
  | clickable
  | invisibility
deriving DecidableEq

/-- Exceptions of the Python code that the engine distinguishes. -/
inductive Err where
  | valueError (m : String)
  | noSuchElement (m : String)
  | timeoutErr (m : String)
  | attributeError (m : String)
  | webDriver (m : String)
deriving DecidableEq

/-- str(e): the message carried by an exception. -/
def Err.msg : Err → String
  | .valueError m => m
  | .noSuchElement m => m
  | .timeoutErr m => m
  | .attributeError m => m
  | .webDriver m => m

/-- One wait-and-locate request issued to the backend:
WebDriverWait(driver, timeout).until(condition((by, value))). -/
structure WaitCall where
  strat : By
  value : String
  timeout : Nat
  cond : Cond
deriving DecidableEq

/-- The browser backend as an oracle: a wait-and-locate request either
resolves to an element (some id) within its timeout, or fails
(NoSuchElementException or TimeoutException, which the source treats
identically: it moves on to the next locator). -/
structure FindEnv where
  wait : By → String → Nat → Cond → Option Nat

/-- An action as consumed by the element resolvers: a locator fallback
chain plus an optional timeout (source default 10). -/
structure FindAction where
  locators : List (String × String)
  timeout : Option Nat
deriving DecidableEq

/-- Python str.upper() for the ASCII strategy names (character-wise
upper-casing). -/
def strUpper (s : String) : String :=
  ⟨s.data.map Char.toUpper⟩

/-- `_get_by_from_string` (script_executor.py lines 466-477): convert a
string locator type to a By constant via an upper-cased table lookup. -/
def _get_by_from_string (s : String) : Option By :=
  match strUpper s with
  | "ID" => some By.id
  | "XPATH" => some By.xpath
  | "CSS_SELECTOR" => some By.cssSelector
  | "CLASS_NAME" => some By.className
  | "NAME" => some By.name
  | "LINK_TEXT" => some By.linkText
  | "PARTIAL_LINK_TEXT" => some By.plinkText
  | "TAG_NAME" => some By.tagName
  | _ => Option.none

/-- The inline locator-type table of `_handle_click` (lines 368-377): the
same eight-entry dict, also keyed on `locator_type_str.upper()`. -/
def clickLocatorType (s : String) : Option By :=
  match strUpper s with
  | "ID" => some By.id
  | "XPATH" => some By.xpath
  | "CSS_SELECTOR" => some By.cssSelector
  | "CLASS_NAME" => some By.className
  | "NAME" => some By.name
  | "LINK_TEXT" => some By.linkText
  | "PARTIAL_LINK_TEXT" => some By.plinkText
  | "TAG_NAME" => some By.tagName
  | _ => Option.none

/-- The strategy dispatch of `_find_element` (lines 997-1030): an
if/elif chain comparing `locator_type` against the lower-case names
id, xpath, css, name, class_name, link_text, partial_link_text, tag_name
by exact string equality; every branch issues the same
visibility_of_element_located wait, differing only in the By constant.
A locator whose type matches no branch is skipped without a backend call. -/
def findStrategyBy (s : String) : Option By :=
  match s with
  | "id" => some By.id
  | "xpath" => some By.xpath
  | "css" => some By.cssSelector
  | "name" => some By.name
  | "class_name" => some By.className
  | "link_text" => some By.linkText
  | "partial_link_text" => some By.plinkText
  | "tag_name" => some By.tagName
  | _ => Option.none

/-- Rendering of a locator list inside error messages (the source
interpolates the Python repr of the list; we render it with a fixed
deterministic function). -/
def locatorsRepr (locs : List (String × String)) : String :=
  "[" ++ String.intercalate ", " (locs.map (fun p => "(" ++ p.1 ++ ", " ++ p.2 ++ ")")) ++ "]"

/-- The locator loop of `_find_element` (lines 996-1032): try each
locator in order; a recognised strategy issues one visibility wait with
the full per-action timeout; success returns immediately, failure moves
to the next locator; an unrecognised strategy is skipped. Returns the
resolved element (if any) and the trace of backend calls issued. -/
def _find_element_loop (env : FindEnv) (timeout : Nat) :
    List (String × String) → Option Nat × List WaitCall
  | [] => (Option.none, [])
  | (lt, lv) :: rest =>
    match findStrategyBy lt with
    | Option.none => _find_element_loop env timeout rest
    | some b =>
      match env.wait b lv timeout Cond.visibility with
      | some e => (some e, [⟨b, lv, timeout, Cond.visibility⟩])
      | Option.none =>
        let r := _find_element_loop env timeout rest
        (r.1, ⟨b, lv, timeout, Cond.visibility⟩ :: r.2)

/-- `_find_element` (lines 979-1036): resolve an element through the
fallback chain; if every locator is exhausted, raise
NoSuchElementException naming the provided locators. -/
def _find_element (env : FindEnv) (action : FindAction) :
    Except Err Nat × List WaitCall :=
  let locators := action.locators
  let timeout := action.timeout.getD 10
  match _find_element_loop env timeout locators with
  | (some e, tr) => (Except.ok e, tr)
  | (Option.none, tr) =>
    (Except.error (Err.noSuchElement
      ("Could not find element with any of the provided locators: " ++ locatorsRepr locators)), tr)

/-- The locator loop of `_find_element_with_wait` (lines 487-497): strategy
names go through `_get_by_from_string`; an unsupported name is logged and
skipped; each recognised locator issues one wait with the caller-chosen
condition and the full per-action timeout. -/
def _find_element_with_wait_loop (env : FindEnv) (timeout : Nat) (cond : Cond) :
    List (String × String) → Option Nat × List WaitCall
  | [] => (Option.none, [])
  | (lt, lv) :: rest =>
    match _get_by_from_string lt with
    | Option.none => _find_element_with_wait_loop env timeout cond rest
    | some b =>
      match env.wait b lv timeout cond with
      | some e => (some e, [⟨b, lv, timeout, cond⟩])
      | Option.none =>
        let r := _find_element_with_wait_loop env timeout cond rest
        (r.1, ⟨b, lv, timeout, cond⟩ :: r.2)

/-- `_find_element_with_wait` (lines 479-499): an empty locator list
raises ValueError before any backend call; otherwise the fallback loop
runs and exhaustion raises NoSuchElementException naming the locators. -/
def _find_element_with_wait (env : FindEnv) (action : FindAction) (cond : Cond) :
    Except Err Nat × List WaitCall :=
  let locators := action.locators
  let timeout := action.timeout.getD 10
  if locators.isEmpty then
    (Except.error (Err.valueError "No locators provided for wait action"), [])
  else
    match _find_element_with_wait_loop env timeout cond locators with
    | (some e, tr) => (Except.ok e, tr)
    | (Option.none, tr) =>
      (Except.error (Err.noSuchElement
        ("Element not found with locators: " ++ locatorsRepr locators)), tr)

/-- A recognised-strategy attempt for locator p fails against env within
the given timeout (or the strategy is unrecognised and never attempted),
for the `_find_element` loop. -/
def attemptFails (env : FindEnv) (timeout : Nat) (p : String × String) : Bool :=
  match findStrategyBy p.1 with
  | some b => (env.wait b p.2 timeout Cond.visibility).isNone
  | Option.none => true

/-- Same notion for the `_find_element_with_wait` loop, whose strategies
come from `_get_by_from_string` and whose condition is caller-chosen. -/
def attemptFailsWait (env : FindEnv) (timeout : Nat) (cond : Cond) (p : String × String) : Bool :=
  match _get_by_from_string p.1 with
  | some b => (env.wait b p.2 timeout cond).isNone
  | Option.none => true

/-- A backend oracle that resolves every wait request to element 1:
used to exhibit behaviour that does not depend on lookup failures. -/
def envFindAll : FindEnv := ⟨fun _ _ _ _ => some 1⟩

/-- A backend oracle that resolves only (By.id, "x") requests, to element 7. -/
def envFindIdOnly : FindEnv :=
  ⟨fun b v _ _ => if b = By.id && v = "x" then some 7 else Option.none⟩

/-! ## The execution orchestrator: `ScriptExecutor.execute_script` (lines 71-215) -/

/-- Python values as far as the orchestrator observes them: the return
value of a handler is passed through bool(...) (line 133). -/
inductive PyVal where
  | none
  | bool (b : Bool)
  | int (n : Int)
  | str (s : String)
  | bytes (n : Nat)
  | list (n : Nat)
  | elem (i : Nat)
deriving DecidableEq

/-- Python truthiness, bool(v). -/
def truthy : PyVal → Bool
  | PyVal.none => false
  | PyVal.bool b => b
  | PyVal.int n => n != 0
  | PyVal.str s => s != ""
  | PyVal.bytes n => n != 0
  | PyVal.list n => n != 0
  | PyVal.elem _ => true

/-- The fields of a well-formed (dict) action that the orchestrator itself
reads: action.get('type'), action.get('description', ''),
action.get('take_screenshot', False), action.get('continue_on_error', True).
The stop test at line 180 is `... is False`, so only an explicit false
value stops; we record the field as present-and-boolean or absent. -/
structure ActionData where
  type : Option String
  description : Option String
  take_screenshot : Bool
  continue_on_error : Option Bool
deriving DecidableEq

/-- An element of script_data['actions']. A non-dict element has no .get
method: line 108 (`action.get('type')`, outside the per-step try) raises
AttributeError, whose message we carry on the constructor. -/
inductive ActionV where
  | dict (d : ActionData)
  | nonDict (m : String)
deriving DecidableEq

/-- Whether an ActionV is a dict. -/
def ActionV.isDict : ActionV → Bool
  | .dict _ => true
  | .nonDict _ => false

/-- The script input (script_data): metadata fields read with .get
defaults at lines 98-104, plus the action list. -/
structure Script where
  name : Option String
  description : Option String
  version : Option String
  created_at : Option String
  updated_at : Option String
  actions : List ActionV
deriving DecidableEq

/-- Per-step report dict built at lines 109-119 and updated on the
success (132-136) and error (155-160) paths. -/
structure ActionResult where
  index : Nat
  type : Option String
  description : String
  success : Bool
  start_time : Nat
  end_time : Option Nat
  duration : Nat
  error : Option String
  screenshot : Option String
deriving DecidableEq

/-- An entry of results['errors'] (lines 172-177). -/
structure ErrEntry where
  action : ActionV
  error : String
  action_index : Nat
  timestamp : Nat
deriving DecidableEq

/-- The results dict of execute_script (lines 84-104, finalised at
193-199 or 208-213). The completion_percentage and error keys only
exist after the respective update, hence Option. -/
structure Results where
  success : Bool
  executed_actions : Nat
  total_actions : Nat
  errors : List ErrEntry
  screenshots : List (String × String)
  execution_time : Nat
  start_time : Nat
  end_time : Option Nat
  actions : List ActionResult
  name : String
  description : String
  version : String
  created_at : String
  updated_at : String
  completion_percentage : Option Rat
  error : Option String
deriving DecidableEq

/-- The environment of one execution: what handler(action) does at each
1-based step index (line 129), and the outcome of the screenshot captures
on the success path (line 142) and the error path (line 165). -/
structure OrchEnv where
  run : Nat → Except Err PyVal
  shot : Nat → Except Err String
  errShot : Nat → Except Err String

/-- One time.time() call: the current tick and the advanced clock. -/
def tick (c : Nat) : Nat × Nat := (c, c + 1)

/-- Rendering of action_type inside f-strings (None prints as "None"). -/
def typeStr : Option String → String
  | some s => s
  | Option.none => "None"

/-- The handler registry keys of `_get_action_handler` (lines 219-281). -/
def knownActionTypes : List String :=
  ["navigate", "go_to_url", "click", "input", "type", "select", "wait", "sleep",
   "execute_js", "js", "switch_to_window", "key_down", "key_up", "type_credential",
   "tab", "click_coordinates", "switch_to_default_content", "move_to_element",
   "double_click", "right_click", "drag_and_drop", "scroll_to", "hover", "refresh",
   "back", "forward", "accept_alert", "dismiss_alert", "switch_to_frame",
   "switch_to_parent_frame", "execute_async_js", "set_window_size", "maximize_window",
   "minimize_window", "fullscreen_window", "take_screenshot", "save_screenshot",
   "set_cookie", "delete_cookie", "delete_all_cookies", "get_cookies", "get_cookie",
   "add_cookie", "execute_in_frame", "wait_for_element", "wait_for_element_visible",
   "wait_for_element_clickable", "wait_for_element_invisible", "wait_for_page_load",
   "wait_for_ajax", "wait_for_angular", "wait_for_jquery", "wait_for_js_condition",
   "wait_for_url", "wait_for_url_contains", "wait_for_title", "wait_for_title_contains",
   "wait_for_alert", "wait_for_alert_text", "wait_for_alert_text_contains",
   "wait_for_alert_not_present"]

/-- `_get_action_handler(action_type)` finds a handler (handlers.get on a
possibly-None key; a None key is not in the dict). -/
def hasHandler : Option String → Bool
  | some t => knownActionTypes.contains t
  | Option.none => false

/-- The running loop state: the tick clock plus the accumulating results. -/
structure LoopState where
  clock : Nat
  res : Results
deriving DecidableEq

/-- Outcome of one iteration of the per-action for loop: continue with the
next action, break out of the loop (line 182), or escape the per-step
handling with an exception (caught only by the outer handler). -/
inductive StepOut where
  | cont (st : LoopState)
  | brk (st : LoopState)
  | esc (st : LoopState) (m : String)
deriving DecidableEq

/-- The state carried by a step outcome. -/
def StepOut.state : StepOut → LoopState
  | .cont st => st
  | .brk st => st
  | .esc st _ => st

/-- Whether a step outcome continues the loop. -/
def StepOut.isCont : StepOut → Bool
  | .cont _ => true
  | _ => false

/-- Whether a step outcome escapes the per-step handling. -/
def StepOut.isEsc : StepOut → Bool
  | .esc _ _ => true
  | _ => false

/-- Success continuation of a step (lines 131-148 and the finally block
184-191): record bool(result), timestamps, the optional screenshot
(failure to capture is logged only), increment executed_actions, and
append the action result. -/
def stepSuccessPath (env : OrchEnv) (idx : Nat) (d : ActionData) (res : Results)
    (c : Nat) (t0 : Nat) (ar0 : ActionResult) (v : PyVal) : StepOut :=
  let (t1, c1) := tick c
  let (t2, c2) := tick c1
  let ar1 := { ar0 with success := truthy v, end_time := some t1, duration := t2 - t0 }
  let (res1, ar2) :=
    if truthy v && d.take_screenshot then
      match env.shot idx with
      | Except.ok png =>
        let nm := "screenshot_" ++ toString idx ++ "_" ++ typeStr d.type ++ ".png"
        ({ res with screenshots := res.screenshots ++ [(nm, png)] },
         { ar1 with screenshot := some nm })
      | Except.error _ => (res, ar1)
    else (res, ar1)
  let res2 := { res1 with executed_actions := res1.executed_actions + 1 }
  let (ar3, c3) :=
    if ar2.end_time = Option.none then
      let (te, cx) := tick c2
      ({ ar2 with end_time := some te, duration := te - ar2.start_time }, cx)
    else (ar2, c2)
  let res3 := { res2 with actions := res2.actions ++ [ar3] }
  StepOut.cont { clock := c3, res := res3 }

/-- Error continuation of a step (lines 150-191): record the failure and
its timestamps, attempt the best-effort error screenshot, append The
script-level error entry, append the action result in the finally block,
and break if and only if continue_on_error is the explicit value false. -/
def stepErrorPath (env : OrchEnv) (idx : Nat) (d : ActionData) (res : Results)
    (c : Nat) (t0 : Nat) (ar0 : ActionResult) (m : String) : StepOut :=
  let (t1, c1) := tick c
  let (t2, c2) := tick c1
  let ar1 := { ar0 with success := false, end_time := some t1, duration := t2 - t0,
                        error := some m }
  let (res1, ar2) :=
    match env.errShot idx with
    | Except.ok png =>
      let nm := "error_" ++ toString idx ++ "_" ++ typeStr d.type ++ ".png"
      ({ res with screenshots := res.screenshots ++ [(nm, png)] },
       { ar1 with screenshot := some nm })
    | Except.error _ => (res, ar1)
  let (ts, c3) := tick c2
  let res2 := { res1 with errors := res1.errors ++
    [({ action := ActionV.dict d, error := m, action_index := idx, timestamp := ts } : ErrEntry)] }
  let (ar3, c4) :=
    if ar2.end_time = Option.none then
      let (te, cx) := tick c3
      ({ ar2 with end_time := some te, duration := te - ar2.start_time }, cx)
    else (ar2, c3)
  let res3 := { res2 with actions := res2.actions ++ [ar3] }
  if d.continue_on_error = some false then
    StepOut.brk { clock := c4, res := res3 }
  else
    StepOut.cont { clock := c4, res := res3 }

/-- One iteration of the for loop of execute_script (lines 107-191).
A non-dict action raises AttributeError at line 108, before the per-step
try is entered, so nothing is recorded and the exception escapes. For a
dict action the handler is looked up (a missing handler raises ValueError
inside the try) and invoked; every exception from the try block is caught
at lines 150-182. The initial per-step report dict of lines 109-119 is
`arInit`, stamped with one tick for its start_time. -/
def arInit (idx : Nat) (d : ActionData) (t0 : Nat) : ActionResult :=
  { index := idx, type := d.type, description := d.description.getD "",
    success := false, start_time := t0, end_time := Option.none, duration := 0,
    error := Option.none, screenshot := Option.none }

def stepAction (env : OrchEnv) (idx : Nat) (a : ActionV) (st : LoopState) : StepOut :=
  match a with
  | ActionV.nonDict m => StepOut.esc st m
  | ActionV.dict d =>
    if hasHandler d.type then
      match env.run idx with
      | Except.ok v =>
        stepSuccessPath env idx d st.res (st.clock + 1) st.clock (arInit idx d st.clock) v
      | Except.error e =>
        stepErrorPath env idx d st.res (st.clock + 1) st.clock (arInit idx d st.clock) e.msg
    else
      stepErrorPath env idx d st.res (st.clock + 1) st.clock (arInit idx d st.clock)
        ("No handler found for action type: " ++ typeStr d.type)

/-- The for loop of execute_script over enumerate(actions, 1): stops on
break, or unwinds with the pending exception message on escape. -/
def loop (env : OrchEnv) : Nat → List ActionV → LoopState → LoopState × Option String
  | _, [], st => (st, Option.none)
  | idx, a :: rest, st =>
    match stepAction env idx a st with
    | StepOut.cont st1 => loop env (idx + 1) rest st1
    | StepOut.brk st1 => (st1, Option.none)
    | StepOut.esc st1 m => (st1, some m)

/-- The results dict as initialised at lines 84-94 (metadata keys not yet
present; we give them empty defaults until the update at lines 98-104). -/
def initResults (script : Script) (t0 : Nat) : Results :=
  { success := true, executed_actions := 0, total_actions := script.actions.length,
    errors := [], screenshots := [], execution_time := 0, start_time := t0,
    end_time := Option.none, actions := [],
    name := "", description := "", version := "", created_at := "", updated_at := "",
    completion_percentage := Option.none, error := Option.none }

/-- State entering the for loop: one tick for results['start_time'], then
the metadata update of lines 98-104. -/
def initState (script : Script) : LoopState :=
  let (t0, c0) := tick 0
  let res0 := initResults script t0
  { clock := c0,
    res := { res0 with
      name := script.name.getD "Unnamed Script",
      description := script.description.getD "",
      version := script.version.getD "1.0",
      created_at := script.created_at.getD "",
      updated_at := script.updated_at.getD "" } }

/-- The loop of execute_script applied to a script from its initial state. -/
def loopFor (env : OrchEnv) (script : Script) : LoopState × Option String :=
  loop env 1 script.actions (initState script)

/-- `ScriptExecutor.execute_script` (lines 71-215). The driver is assumed
started (line 81 reuses an existing session; the helper at line 1057 and
the server both start it before calling). On normal loop completion the
final update of lines 193-199 runs; an exception escaping the per-step
handling reaches the outer except (lines 203-215), which stamps the end
time, forces success to False, and adds the error key, returning whatever
partial results had accumulated. -/
def execute_script (env : OrchEnv) (script : Script) : Results :=
  match loopFor env script with
  | (st, Option.none) =>
    let (te, c1) := tick st.clock
    let (tx, _) := tick c1
    { st.res with
      end_time := some te,
      execution_time := tx - st.res.start_time,
      success := st.res.errors.isEmpty,
      completion_percentage := some
        (if st.res.total_actions > 0 then
          ((st.res.executed_actions : Rat) / (st.res.total_actions : Rat)) * 100
        else 100) }
  | (st, some m) =>
    let (te, c1) := tick st.clock
    let (tx, _) := tick c1
    { st.res with
      end_time := some te,
      execution_time := tx - st.res.start_time,
      success := false,
      error := some ("Unexpected error during script execution: " ++ m) }

/-- Whether the try block of a step raises for a dict action: either the
handler lookup fails or the handler itself raises. -/
def stepRaises (env : OrchEnv) (idx : Nat) (d : ActionData) : Bool :=
  !hasHandler d.type ||
    (match env.run idx with
     | Except.ok _ => false
     | Except.error _ => true)

/-! ## Frame context: `_handle_execute_in_frame` (lines 320-354) and
`_handle_switch_to_frame` (lines 866-879) -/

/-- The driving session as the frame handlers observe it: how deeply the
session is nested inside frames. switch_to.frame enters one level;
switch_to.default_content returns to the top (depth zero). -/
structure Driver where
  frameDepth : Nat
deriving DecidableEq

/-- frame_locator of an execute_in_frame action: either
{'type': 'index', 'value': i} or an element locator handed to
`_find_element`. -/
inductive FrameLoc where
  | byIndex (i : Nat)
  | byLocator (strat : String) (value : String)
deriving DecidableEq

/-- An execute_in_frame action: the frame locator (None when missing or
falsy) and the nested action items, abstracted as opaque tokens resolved
by the environment. -/
structure FrameAction where
  frame_locator : Option FrameLoc
  actions : List Nat
deriving DecidableEq

/-- Environment of the frame handler: whether the switch into the frame
succeeds (covering both the index form and the find-element-then-switch
form, lines 335-339), whether `_get_action_handler` knows the nested
action token, and the effect of running its handler (which may itself
move between frames or raise). -/
structure FrameEnv where
  enterFrame : FrameLoc → Except Err Unit
  hasNestedHandler : Nat → Bool
  runNested : Nat → Driver → Except Err Driver

/-- The switch into the frame: on success the session is one frame level
deeper. -/
def enterFrameStep (env : FrameEnv) (fl : FrameLoc) (st : Driver) : Except Err Driver :=
  match env.enterFrame fl with
  | Except.ok _ => Except.ok { frameDepth := st.frameDepth + 1 }
  | Except.error e => Except.error e

/-- The nested loop of lines 342-346: look up each nested action handler,
run it when one exists, skip it silently otherwise; an exception
propagates out. -/
def runNestedActions (env : FrameEnv) : List Nat → Driver → Except Err Driver
  | [], st => Except.ok st
  | k :: rest, st =>
    if env.hasNestedHandler k then
      match env.runNested k st with
      | Except.ok st1 => runNestedActions env rest st1
      | Except.error e => Except.error e
    else
      runNestedActions env rest st

/-- `_handle_execute_in_frame` (lines 320-354): missing/falsy
frame_locator or an empty nested list returns None immediately (lines
330-331), before the try block, so no restoration runs on that path.
Otherwise the try/except/finally guarantees switch_to.default_content on
every exit, whether frame entry fails, a nested action raises, or the
nested sequence completes. The pair returned is the Python outcome
(None on success, the propagated exception otherwise) and the driver
state the handler leaves behind. -/
def _handle_execute_in_frame (env : FrameEnv) (a : FrameAction) (st : Driver) :
    Except Err Unit × Driver :=
  match a.frame_locator with
  | Option.none => (Except.ok (), st)
  | some fl =>
    if a.actions.isEmpty then (Except.ok (), st)
    else
      match enterFrameStep env fl st with
      | Except.error e => (Except.error e, { frameDepth := 0 })
      | Except.ok st1 =>
        match runNestedActions env a.actions st1 with
        | Except.error e => (Except.error e, { frameDepth := 0 })
        | Except.ok _ => (Except.ok (), { frameDepth := 0 })

/-- `_handle_switch_to_frame` (lines 866-879): requires frame_reference
and enters the referenced frame (one level deeper). -/
def _handle_switch_to_frame (frame_reference : Option Nat) (st : Driver) :
    Except Err Bool × Driver :=
  match frame_reference with
  | Option.none =>
    (Except.error (Err.valueError "frame_reference is required for switch_to_frame action"), st)
  | some _ => (Except.ok true, { frameDepth := st.frameDepth + 1 })

/-! ## `_handle_select` (lines 437-458) -/

/-- A select action: the locator chain handed to `_find_element` plus the
three optional selection criteria; an Option value models presence of the
dict key tested by the source (`'value' in action` and so on). -/
structure SelAction where
  locators : List (String × String)
  timeout : Option Nat
  value : Option String
  index : Option Nat
  visible_text : Option String
deriving DecidableEq

/-- Backend calls a select action can issue: the element lookups of
`_find_element`, then one select_by_value / select_by_index /
select_by_visible_text call. -/
inductive SelectCall where
  | find (c : WaitCall)
  | selValue (v : String)
  | selIndex (i : Nat)
  | selText (t : String)
deriving DecidableEq

/-- Environment of the select handler: the element-lookup oracle plus the
outcome of each Select API call. -/
structure SelectEnv where
  find : FindEnv
  byValue : String → Except Err Unit
  byIndex : Nat → Except Err Unit
  byText : String → Except Err Unit

/-- `_handle_select`: the element is resolved through `_find_element`
first (line 441); only then are the criteria consulted, in the priority
value, index, visible_text (lines 445-450); if none is present a
ValueError is raised (line 452); a failing Select call is re-raised
(lines 456-458). The trace records every backend call in order. -/
def _handle_select (env : SelectEnv) (action : SelAction) :
    Except Err Bool × List SelectCall :=
  match _find_element env.find { locators := action.locators, timeout := action.timeout } with
  | (Except.error e, tr) => (Except.error e, tr.map SelectCall.find)
  | (Except.ok _, tr) =>
    let ftr := tr.map SelectCall.find
    match action.value with
    | some v => ((env.byValue v).map (fun _ => true), ftr ++ [SelectCall.selValue v])
    | Option.none =>
      match action.index with
      | some i => ((env.byIndex i).map (fun _ => true), ftr ++ [SelectCall.selIndex i])
      | Option.none =>
        match action.visible_text with
        | some t => ((env.byText t).map (fun _ => true), ftr ++ [SelectCall.selText t])
        | Option.none =>
          (Except.error (Err.valueError "No valid selection criteria provided for select action"),
           ftr)

/-! ## `_handle_switch_window` (lines 672-698) -/

/-- Environment of the window handler: the current handle and the handle
list observed at call time, whether the 10-second wait for
number_of_windows_to_be(count + 1) succeeds, and the handle list read
after the wait. -/
structure WindowEnv where
  current : String
  handles0 : List String
  waitOk : Bool
  handles1 : List String

/-- A switch_to_window action (target defaults to "new"). -/
structure SwitchAction where
  target : Option String
deriving DecidableEq

/-- What the window handler did: the wait request it issued, as
(timeout seconds, expected window count), and the handle it switched to. -/
structure WindowTrace where
  waitCall : Option (Nat × Nat)
  switchedTo : Option String
deriving DecidableEq

/-- `_handle_switch_window`: for target "new" it records the current
handle, waits up to the fixed 10 seconds for the window count to become
one more than the count observed at call time (lines 679-681), returns
False on timeout instead of raising (lines 682-684), and otherwise
switches to the first handle differing from the original, returning True
(False when no such handle exists). Target "original" switches to the
first handle; any other target returns False. -/
def _handle_switch_window (env : WindowEnv) (a : SwitchAction) :
    Except Err Bool × WindowTrace :=
  let target := a.target.getD "new"
  if target = "new" then
    let original := env.current
    let wc := some (10, env.handles0.length + 1)
    if env.waitOk then
      match env.handles1.filter (fun h => h ≠ original) with
      | [] => (Except.ok false, { waitCall := wc, switchedTo := Option.none })
      | h :: _ => (Except.ok true, { waitCall := wc, switchedTo := some h })
    else
      (Except.ok false, { waitCall := wc, switchedTo := Option.none })
  else if target = "original" then
    match env.handles0 with
    | [] => (Except.ok false, { waitCall := Option.none, switchedTo := Option.none })
    | h :: _ => (Except.ok true, { waitCall := Option.none, switchedTo := some h })
  else
    (Except.ok false, { waitCall := Option.none, switchedTo := Option.none })

/-! ## Concrete instances used by witnesses and counterexamples -/

/-- An orchestrator environment whose handlers always succeed with True
and whose screenshots always succeed. -/
def envRunOk : OrchEnv :=
  { run := fun _ => Except.ok (PyVal.bool true),
    shot := fun _ => Except.ok "png",
    errShot := fun _ => Except.ok "png" }

/-- An orchestrator environment whose handler at step 1 returns None
(as `_handle_execute_in_frame` and `_handle_wait_for_jquery` do on their
normal path) and succeeds with True elsewhere. -/
def envRunNone : OrchEnv :=
  { run := fun i => if i = 1 then Except.ok PyVal.none else Except.ok (PyVal.bool true),
    shot := fun _ => Except.ok "png",
    errShot := fun _ => Except.ok "png" }

/-- An orchestrator environment whose handler at step 1 raises a
WebDriverException and succeeds with True elsewhere. -/
def envRunFail1 : OrchEnv :=
  { run := fun i => if i = 1 then Except.error (Err.webDriver "session crashed")
                    else Except.ok (PyVal.bool true),
    shot := fun _ => Except.ok "png",
    errShot := fun _ => Except.ok "png" }

/-- A script consisting of a single non-dict action element. -/
def scriptNonDict : Script :=
  { name := Option.none, description := Option.none, version := Option.none,
    created_at := Option.none, updated_at := Option.none,
    actions := [ActionV.nonDict "str object has no attribute get"] }

/-- A well-formed wait action dict with defaults. -/
def waitActionData : ActionData :=
  { type := some "wait", description := Option.none,
    take_screenshot := false, continue_on_error := Option.none }

/-- A wait action dict with continue_on_error explicitly false. -/
def waitActionStop : ActionData :=
  { type := some "wait", description := Option.none,
    take_screenshot := false, continue_on_error := some false }

/-- An execute_in_frame action dict with defaults. -/
def frameActionData : ActionData :=
  { type := some "execute_in_frame", description := Option.none,
    take_screenshot := false, continue_on_error := Option.none }

/-- A script with no actions. -/
def scriptEmpty : Script :=
  { name := Option.none, description := Option.none, version := Option.none,
    created_at := Option.none, updated_at := Option.none, actions := [] }

/-- A script with one well-formed wait action. -/
def scriptOneWait : Script :=
  { name := Option.none, description := Option.none, version := Option.none,
    created_at := Option.none, updated_at := Option.none,
    actions := [ActionV.dict waitActionData] }

/-- A script with one well-formed execute_in_frame action. -/
def scriptOneFrame : Script :=
  { name := Option.none, description := Option.none, version := Option.none,
    created_at := Option.none, updated_at := Option.none,
    actions := [ActionV.dict frameActionData] }

/-- A frame environment in which every frame entry and every nested
handler succeeds without moving between frames. -/
def envFrameOk : FrameEnv :=
  { enterFrame := fun _ => Except.ok (),
    hasNestedHandler := fun _ => true,
    runNested := fun _ st => Except.ok st }

/-- A select environment whose element lookups always resolve and whose
Select calls always succeed. -/
def envSelectOk : SelectEnv :=
  { find := envFindAll,
    byValue := fun _ => Except.ok (),
    byIndex := fun _ => Except.ok (),
    byText := fun _ => Except.ok () }

/-! ## Theorems -/

/-- Claim C4, counterexample: `_find_element` called with an empty locator
list does not fail with the parameter error the claim requires; it falls
through the loop and reports a not-found error (naming the empty set),
even against a backend that would resolve any lookup. -/
theorem empty_locators_param_error_cex :
    (_find_element envFindAll { locators := [], timeout := Option.none }).1 =
      Except.error (Err.noSuchElement
        "Could not find element with any of the provided locators: []") ∧
    ∀ m, (_find_element envFindAll { locators := [], timeout := Option.none }).1 ≠
      Except.error (Err.valueError m) := by
  constructor
  · rfl
  · intro m h
    simp [_find_element, _find_element_loop] at h

/-- Claim C4 (amended): on an empty locator list the explicit-wait resolver
`_find_element_with_wait` fails with the parameter error "No locators
provided for wait action" before any backend call, while the generic
resolver `_find_element` instead fails with a not-found error naming the
(empty) locator set — also without any backend call. -/
theorem empty_locators_amended :
    (∀ (env : FindEnv) (action : FindAction) (cond : Cond), action.locators = [] →
      _find_element_with_wait env action cond =
        (Except.error (Err.valueError "No locators provided for wait action"), [])) ∧
    (∀ (env : FindEnv) (action : FindAction), action.locators = [] →
      _find_element env action =
        (Except.error (Err.noSuchElement
          ("Could not find element with any of the provided locators: " ++
            locatorsRepr action.locators)), [])) := by
  constructor
  · intro env action cond h
    simp [_find_element_with_wait, h]
  · intro env action h
    simp [_find_element, h, _find_element_loop]

/-- Witness for the amended C4 at concrete inputs. -/
theorem empty_locators_amended_witness :
    _find_element_with_wait envFindAll { locators := [], timeout := Option.none } Cond.presence =
      (Except.error (Err.valueError "No locators provided for wait action"), []) ∧
    _find_element envFindAll { locators := [], timeout := Option.none } =
      (Except.error (Err.noSuchElement
        ("Could not find element with any of the provided locators: " ++
          locatorsRepr ([] : List (String × String)))), []) :=
  ⟨empty_locators_amended.1 envFindAll ⟨[], Option.none⟩ Cond.presence rfl,
   empty_locators_amended.2 envFindAll ⟨[], Option.none⟩ rfl⟩

/-- Claim C7, counterexample: strategy names are not matched
case-insensitively in every element-resolving path. In the generic
`_find_element` path the comparison is exact lower-case: against a backend
that resolves (By.id, "x"), the locator ("id", "x") resolves to the
element, while ("ID", "x") is skipped without a single backend call and
the resolution fails. -/
theorem locator_case_insensitive_cex :
    (_find_element envFindIdOnly { locators := [("id", "x")], timeout := Option.none }).1 =
      Except.ok 7 ∧
    (_find_element envFindIdOnly { locators := [("ID", "x")], timeout := Option.none }).1 =
      Except.error (Err.noSuchElement
        "Could not find element with any of the provided locators: [(ID, x)]") ∧
    (_find_element envFindIdOnly { locators := [("ID", "x")], timeout := Option.none }).2 = [] := by
  refine ⟨rfl, rfl, rfl⟩

/-- Claim C7 (amended): the click-fallback table and
`_get_by_from_string` (used by the explicit-wait path) match strategy
names case-insensitively and agree with each other, but the generic
`_find_element` path recognises only the exact lower-case names. -/
theorem locator_case_insensitive_amended :
    (∀ s t : String, strUpper s = strUpper t → _get_by_from_string s = _get_by_from_string t) ∧
    (∀ s t : String, strUpper s = strUpper t → clickLocatorType s = clickLocatorType t) ∧
    (∀ s : String, clickLocatorType s = _get_by_from_string s) ∧
    (∀ s b, findStrategyBy s = some b →
      s ∈ ["id", "xpath", "css", "name", "class_name", "link_text",
           "partial_link_text", "tag_name"]) := by
  refine ⟨?_, ?_, ?_, ?_⟩
  · intro s t h
    unfold _get_by_from_string
    rw [h]
  · intro s t h
    unfold clickLocatorType
    rw [h]
  · intro s
    rfl
  · intro s b h
    unfold findStrategyBy at h
    split at h <;> simp_all

/-- Witness for the amended C7 at concrete inputs. -/
theorem locator_case_insensitive_amended_witness :
    _get_by_from_string "Xpath" = _get_by_from_string "XPATH" ∧
    clickLocatorType "Id" = clickLocatorType "iD" ∧
    "css" ∈ ["id", "xpath", "css", "name", "class_name", "link_text",
             "partial_link_text", "tag_name"] :=
  ⟨locator_case_insensitive_amended.1 "Xpath" "XPATH" (by decide),
   locator_case_insensitive_amended.2.1 "Id" "iD" (by decide),
   locator_case_insensitive_amended.2.2.2 "css" By.cssSelector rfl⟩

/-- Claim C6, counterexample: the handler does not return the frame depth
to zero on every exit path. After a preceding switch_to_frame action has
nested the session one frame deep, an execute_in_frame action whose
frame_locator is missing returns at lines 330-331, before the
try/finally, leaving the session at depth 1. -/
theorem frame_depth_restore_cex :
    ((_handle_execute_in_frame envFrameOk
        { frame_locator := Option.none, actions := [1] }
        (_handle_switch_to_frame (some 0) { frameDepth := 0 }).2).2.frameDepth = 1) ∧
    ¬ ((_handle_execute_in_frame envFrameOk
        { frame_locator := Option.none, actions := [1] }
        (_handle_switch_to_frame (some 0) { frameDepth := 0 }).2).2.frameDepth = 0) := by
  exact ⟨rfl, by decide⟩

/-- Claim C6 (amended): whenever a frame_locator is present and the nested
action list is nonempty — in particular in all three scenarios named by
the claim: nested sequence succeeds, a nested action raises, frame entry
itself fails — the handler leaves the session at the default content
(frame depth zero) on every exit path; when the frame_locator or the
nested list is missing the handler returns immediately and leaves the
frame context untouched. -/
theorem frame_depth_restore_amended :
    ∀ (env : FrameEnv) (fl : FrameLoc) (acts : List Nat) (st : Driver),
      acts ≠ [] →
      (_handle_execute_in_frame env { frame_locator := some fl, actions := acts } st).2.frameDepth
        = 0 := by
  intro env fl acts st h
  unfold _handle_execute_in_frame
  cases henter : enterFrameStep env fl st with
  | error e => simp [h, henter]
  | ok st1 =>
    cases hrun : runNestedActions env acts st1 with
    | error e => simp [h, henter, hrun]
    | ok st2 => simp [h, henter, hrun]

/-- Witness for the amended C6: frame entry succeeding with a nested
action, starting from depth zero, ends at depth zero. -/
theorem frame_depth_restore_amended_witness :
    (_handle_execute_in_frame envFrameOk
      { frame_locator := some (FrameLoc.byIndex 0), actions := [1] }
      { frameDepth := 0 }).2.frameDepth = 0 :=
  frame_depth_restore_amended envFrameOk (FrameLoc.byIndex 0) [1] { frameDepth := 0 }
    (by decide)

/-- Claim C8, counterexample: a select action with none of value / index /
visible_text does produce the parameter error, but only after the handler
has resolved the element — a backend wait/find call is made (the trace is
nonempty), contradicting "no backend call is made". -/
theorem select_no_criteria_cex :
    _handle_select envSelectOk
        { locators := [("id", "x")], timeout := Option.none,
          value := Option.none, index := Option.none, visible_text := Option.none } =
      (Except.error (Err.valueError "No valid selection criteria provided for select action"),
       [SelectCall.find ⟨By.id, "x", 10, Cond.visibility⟩]) ∧
    (_handle_select envSelectOk
        { locators := [("id", "x")], timeout := Option.none,
          value := Option.none, index := Option.none, visible_text := Option.none }).2 ≠ [] := by
  exact ⟨rfl, by decide⟩

/-- Claim C8 (amended): the select handler first resolves the element via
`_find_element` (issuing backend lookups); once the element is resolved,
the selection criteria are consulted in the priority value, then index,
then visible text, and if none of the three is present the handler fails
with the parameter error — issuing no select-option backend call, but
after the element lookups already happened. -/
theorem select_criteria_amended :
    ∀ (env : SelectEnv) (a : SelAction) (el : Nat) (tr : List WaitCall),
      _find_element env.find { locators := a.locators, timeout := a.timeout } =
        (Except.ok el, tr) →
      ((a.value = Option.none → a.index = Option.none → a.visible_text = Option.none →
        _handle_select env a =
          (Except.error (Err.valueError "No valid selection criteria provided for select action"),
           tr.map SelectCall.find)) ∧
       (∀ v, a.value = some v →
        _handle_select env a = ((env.byValue v).map (fun _ => true),
          tr.map SelectCall.find ++ [SelectCall.selValue v])) ∧
       (∀ i, a.value = Option.none → a.index = some i →
        _handle_select env a = ((env.byIndex i).map (fun _ => true),
          tr.map SelectCall.find ++ [SelectCall.selIndex i])) ∧
       (∀ t, a.value = Option.none → a.index = Option.none → a.visible_text = some t →
        _handle_select env a = ((env.byText t).map (fun _ => true),
          tr.map SelectCall.find ++ [SelectCall.selText t]))) := by
  intro env a el tr hfind
  refine ⟨?_, ?_, ?_, ?_⟩
  · intro hv hi ht
    simp [_handle_select, hfind, hv, hi, ht]
  · intro v hv
    simp [_handle_select, hfind, hv]
  · intro i hv hi
    simp [_handle_select, hfind, hv, hi]
  · intro t hv hi ht
    simp [_handle_select, hfind, hv, hi, ht]

/-- Witness for the amended C8 at concrete inputs: the no-criteria case
and the value-priority case. -/
theorem select_criteria_amended_witness :
    _handle_select envSelectOk
        { locators := [("id", "x")], timeout := Option.none,
          value := Option.none, index := Option.none, visible_text := some "t" } =
      ((envSelectOk.byText "t").map (fun _ => true),
       [WaitCall.mk By.id "x" 10 Cond.visibility].map SelectCall.find ++
         [SelectCall.selText "t"]) :=
  (select_criteria_amended envSelectOk
      { locators := [("id", "x")], timeout := Option.none,
        value := Option.none, index := Option.none, visible_text := some "t" }
      1 [WaitCall.mk By.id "x" 10 Cond.visibility] rfl).2.2.2 "t" rfl rfl rfl

/-- Claim C9: for target "new" the window handler issues one wait of the
fixed 10 seconds for the window count to become exactly one more than the
count observed at call time; on timeout it returns False (an ordinary
value, not an exception); on success it switches to a handle that differs
from the original and returns True; in no case does it raise. -/
theorem switch_window_new_behaviour :
    ∀ (env : WindowEnv) (a : SwitchAction), a.target.getD "new" = "new" →
      ((_handle_switch_window env a).2.waitCall = some (10, env.handles0.length + 1)) ∧
      (env.waitOk = false →
        _handle_switch_window env a =
          (Except.ok false,
           { waitCall := some (10, env.handles0.length + 1), switchedTo := Option.none })) ∧
      (∀ h t, env.waitOk = true →
        env.handles1.filter (fun x => x ≠ env.current) = h :: t →
        (_handle_switch_window env a).1 = Except.ok true ∧
        (_handle_switch_window env a).2.switchedTo = some h ∧ h ≠ env.current) ∧
      ((_handle_switch_window env a).1 = Except.ok true ∨
       (_handle_switch_window env a).1 = Except.ok false) := by
  intro env a htarget
  have hne : ∀ h t, env.handles1.filter (fun x => x ≠ env.current) = h :: t →
      h ≠ env.current := by
    intro h t hf
    have hmem : h ∈ env.handles1.filter (fun x => x ≠ env.current) := by
      rw [hf]; exact List.mem_cons_self h t
    have := List.of_mem_filter hmem
    exact of_decide_eq_true this
  refine ⟨?_, ?_, ?_, ?_⟩
  · cases hw : env.waitOk with
    | false => simp [_handle_switch_window, htarget, hw]
    | true =>
      cases hf : env.handles1.filter (fun x => x ≠ env.current) with
      | nil =>
        simp only [ne_eq, decide_not] at hf
        simp [_handle_switch_window, htarget, hw, hf]
      | cons h t =>
        simp only [ne_eq, decide_not] at hf
        simp [_handle_switch_window, htarget, hw, hf]
  · intro hw
    simp [_handle_switch_window, htarget, hw]
  · intro h t hw hf
    refine ⟨?_, ?_, hne h t hf⟩ <;>
      · simp only [ne_eq, decide_not] at hf
        simp [_handle_switch_window, htarget, hw, hf]
  · cases hw : env.waitOk with
    | false => right; simp [_handle_switch_window, htarget, hw]
    | true =>
      cases hf : env.handles1.filter (fun x => x ≠ env.current) with
      | nil =>
        right
        simp only [ne_eq, decide_not] at hf
        simp [_handle_switch_window, htarget, hw, hf]
      | cons h t =>
        left
        simp only [ne_eq, decide_not] at hf
        simp [_handle_switch_window, htarget, hw, hf]

/-- Witness for C9 at concrete inputs: a new window "b" appears next to
the original "a" within the wait, and the handler switches to it; the
wait request asked for count 2 with the fixed 10-second timeout. -/
theorem switch_window_new_behaviour_witness :
    ((_handle_switch_window
        { current := "a", handles0 := ["a"], waitOk := true, handles1 := ["a", "b"] }
        { target := Option.none }).2.waitCall = some (10, 2)) ∧
    ((_handle_switch_window
        { current := "a", handles0 := ["a"], waitOk := true, handles1 := ["a", "b"] }
        { target := Option.none }).1 = Except.ok true) ∧
    ((_handle_switch_window
        { current := "a", handles0 := ["a"], waitOk := true, handles1 := ["a", "b"] }
        { target := Option.none }).2.switchedTo = some "b") := by
  have h := switch_window_new_behaviour
    { current := "a", handles0 := ["a"], waitOk := true, handles1 := ["a", "b"] }
    { target := Option.none } rfl
  have h3 := h.2.2.1 "b" [] rfl (by decide)
  exact ⟨h.1, h3.1, h3.2.1⟩

/-- Helper: locators that all fail are walked through, their recognised
attempts contributing to the trace, and resolution continues on the
remainder of the chain (for the `_find_element` loop). -/
theorem find_loop_append_fails (env : FindEnv) (t : Nat) (pre rest : List (String × String))
    (h : ∀ p ∈ pre, attemptFails env t p = true) :
    _find_element_loop env t (pre ++ rest) =
      ((_find_element_loop env t rest).1,
       (_find_element_loop env t pre).2 ++ (_find_element_loop env t rest).2) := by
  induction pre with
  | nil => simp [_find_element_loop]
  | cons p pre ih =>
    obtain ⟨lt, lv⟩ := p
    have hp := h (lt, lv) (List.mem_cons_self _ _)
    have ih2 := ih (fun q hq => h q (List.mem_cons_of_mem _ hq))
    unfold attemptFails at hp
    simp only [List.cons_append]
    cases hs : findStrategyBy lt with
    | none =>
      simp only [_find_element_loop, hs]
      exact ih2
    | some b =>
      simp only [hs] at hp
      have hw : env.wait b lv t Cond.visibility = Option.none :=
        Option.isNone_iff_eq_none.mp hp
      simp only [_find_element_loop, hs, hw]
      rw [ih2]
      simp

/-- Helper: every backend call issued by the `_find_element` loop carries
the full per-action timeout. -/
theorem find_loop_timeout (env : FindEnv) (t : Nat) (locs : List (String × String)) :
    ∀ c ∈ (_find_element_loop env t locs).2, c.timeout = t := by
  induction locs with
  | nil => simp [_find_element_loop]
  | cons p locs ih =>
    obtain ⟨lt, lv⟩ := p
    cases hs : findStrategyBy lt with
    | none =>
      simpa only [_find_element_loop, hs] using ih
    | some b =>
      cases hw : env.wait b lv t Cond.visibility with
      | none =>
        intro c hc
        simp only [_find_element_loop, hs, hw, List.mem_cons] at hc
        rcases hc with rfl | hc
        · rfl
        · exact ih c hc
      | some e =>
        intro c hc
        simp only [_find_element_loop, hs, hw, List.mem_cons, List.not_mem_nil,
          or_false] at hc
        subst hc
        rfl

/-- Helper: same walk-through property for the `_find_element_with_wait`
loop. -/
theorem find_wait_loop_append_fails (env : FindEnv) (t : Nat) (cond : Cond)
    (pre rest : List (String × String))
    (h : ∀ p ∈ pre, attemptFailsWait env t cond p = true) :
    _find_element_with_wait_loop env t cond (pre ++ rest) =
      ((_find_element_with_wait_loop env t cond rest).1,
       (_find_element_with_wait_loop env t cond pre).2 ++
         (_find_element_with_wait_loop env t cond rest).2) := by
  induction pre with
  | nil => simp [_find_element_with_wait_loop]
  | cons p pre ih =>
    obtain ⟨lt, lv⟩ := p
    have hp := h (lt, lv) (List.mem_cons_self _ _)
    have ih2 := ih (fun q hq => h q (List.mem_cons_of_mem _ hq))
    unfold attemptFailsWait at hp
    simp only [List.cons_append]
    cases hs : _get_by_from_string lt with
    | none =>
      simp only [_find_element_with_wait_loop, hs]
      exact ih2
    | some b =>
      simp only [hs] at hp
      have hw : env.wait b lv t cond = Option.none := Option.isNone_iff_eq_none.mp hp
      simp only [_find_element_with_wait_loop, hs, hw]
      rw [ih2]
      simp

/-- Helper: every backend call issued by the `_find_element_with_wait`
loop carries the full per-action timeout. -/
theorem find_wait_loop_timeout (env : FindEnv) (t : Nat) (cond : Cond)
    (locs : List (String × String)) :
    ∀ c ∈ (_find_element_with_wait_loop env t cond locs).2, c.timeout = t := by
  induction locs with
  | nil => simp [_find_element_with_wait_loop]
  | cons p locs ih =>
    obtain ⟨lt, lv⟩ := p
    cases hs : _get_by_from_string lt with
    | none =>
      simpa only [_find_element_with_wait_loop, hs] using ih
    | some b =>
      cases hw : env.wait b lv t cond with
      | none =>
        intro c hc
        simp only [_find_element_with_wait_loop, hs, hw, List.mem_cons] at hc
        rcases hc with rfl | hc
        · rfl
        · exact ih c hc
      | some e =>
        intro c hc
        simp only [_find_element_with_wait_loop, hs, hw, List.mem_cons,
          List.not_mem_nil, or_false] at hc
        subst hc
        rfl

/-- Claim C5: in both resolvers, if every locator before position i fails
(or has an unrecognised strategy) and locator i resolves under the wait
condition, the resolver returns that element and the locators after i are
never attempted (the call trace consists of the failed attempts of the
prefix plus the one successful call); every issued wait carries the full
per-action timeout, with no shared budget; and only when every locator in
the chain fails does resolution end in a not-found error naming the
exhausted locator set. -/
theorem locator_fallback_chain :
    (∀ (env : FindEnv) (action : FindAction) (pre rest : List (String × String))
       (lt lv : String) (b : By) (e : Nat),
       action.locators = pre ++ (lt, lv) :: rest →
       (∀ p ∈ pre, attemptFails env (action.timeout.getD 10) p = true) →
       findStrategyBy lt = some b →
       env.wait b lv (action.timeout.getD 10) Cond.visibility = some e →
       (_find_element env action).1 = Except.ok e ∧
       (_find_element env action).2 =
         (_find_element_loop env (action.timeout.getD 10) pre).2 ++
           [⟨b, lv, action.timeout.getD 10, Cond.visibility⟩] ∧
       (∀ c ∈ (_find_element env action).2, c.timeout = action.timeout.getD 10)) ∧
    (∀ (env : FindEnv) (action : FindAction),
       (∀ p ∈ action.locators, attemptFails env (action.timeout.getD 10) p = true) →
       _find_element env action =
         (Except.error (Err.noSuchElement
           ("Could not find element with any of the provided locators: " ++
             locatorsRepr action.locators)),
          (_find_element_loop env (action.timeout.getD 10) action.locators).2)) ∧
    (∀ (env : FindEnv) (action : FindAction) (cond : Cond)
       (pre rest : List (String × String)) (lt lv : String) (b : By) (e : Nat),
       action.locators = pre ++ (lt, lv) :: rest →
       (∀ p ∈ pre, attemptFailsWait env (action.timeout.getD 10) cond p = true) →
       _get_by_from_string lt = some b →
       env.wait b lv (action.timeout.getD 10) cond = some e →
       (_find_element_with_wait env action cond).1 = Except.ok e ∧
       (_find_element_with_wait env action cond).2 =
         (_find_element_with_wait_loop env (action.timeout.getD 10) cond pre).2 ++
           [⟨b, lv, action.timeout.getD 10, cond⟩] ∧
       (∀ c ∈ (_find_element_with_wait env action cond).2,
         c.timeout = action.timeout.getD 10)) ∧
    (∀ (env : FindEnv) (action : FindAction) (cond : Cond),
       action.locators ≠ [] →
       (∀ p ∈ action.locators, attemptFailsWait env (action.timeout.getD 10) cond p = true) →
       _find_element_with_wait env action cond =
         (Except.error (Err.noSuchElement
           ("Element not found with locators: " ++ locatorsRepr action.locators)),
          (_find_element_with_wait_loop env (action.timeout.getD 10) cond
            action.locators).2)) := by
  refine ⟨?_, ?_, ?_, ?_⟩
  · intro env action pre rest lt lv b e hloc hfails hs hw
    have hstep : _find_element_loop env (action.timeout.getD 10) ((lt, lv) :: rest) =
        (some e, [⟨b, lv, action.timeout.getD 10, Cond.visibility⟩]) := by
      simp [_find_element_loop, hs, hw]
    have hfull := find_loop_append_fails env (action.timeout.getD 10) pre
      ((lt, lv) :: rest) hfails
    rw [hstep] at hfull
    have htrace := find_loop_timeout env (action.timeout.getD 10) action.locators
    refine ⟨?_, ?_, ?_⟩
    · simp [_find_element, hloc, hfull]
    · simp [_find_element, hloc, hfull]
    · intro c hc
      apply htrace
      revert hc
      simp [_find_element, hloc, hfull]
  · intro env action hfails
    have hfull := find_loop_append_fails env (action.timeout.getD 10) action.locators
      [] hfails
    simp only [List.append_nil, _find_element_loop] at hfull
    cases hl : _find_element_loop env (action.timeout.getD 10) action.locators with
    | mk r tr =>
      rw [hl] at hfull
      cases hfull
      simp [_find_element, hl]
  · intro env action cond pre rest lt lv b e hloc hfails hs hw
    have hstep : _find_element_with_wait_loop env (action.timeout.getD 10) cond
        ((lt, lv) :: rest) = (some e, [⟨b, lv, action.timeout.getD 10, cond⟩]) := by
      simp [_find_element_with_wait_loop, hs, hw]
    have hfull := find_wait_loop_append_fails env (action.timeout.getD 10) cond pre
      ((lt, lv) :: rest) hfails
    rw [hstep] at hfull
    have hne : action.locators.isEmpty = false := by
      rw [hloc]
      cases pre <;> rfl
    have htrace := find_wait_loop_timeout env (action.timeout.getD 10) cond action.locators
    refine ⟨?_, ?_, ?_⟩
    · simp [_find_element_with_wait, hloc, hne, hfull]
    · simp [_find_element_with_wait, hloc, hne, hfull]
    · intro c hc
      apply htrace
      revert hc
      simp only [_find_element_with_wait, hloc]
      rw [hloc] at hne
      simp [hne, hfull, hloc]
  · intro env action cond hne hfails
    have hfull := find_wait_loop_append_fails env (action.timeout.getD 10) cond
      action.locators [] hfails
    simp only [List.append_nil, _find_element_with_wait_loop] at hfull
    have hne2 : action.locators.isEmpty = false := by
      cases hl : action.locators with
      | nil => exact absurd hl hne
      | cons p ps => rfl
    cases hl : _find_element_with_wait_loop env (action.timeout.getD 10) cond
        action.locators with
    | mk r tr =>
      rw [hl] at hfull
      cases hfull
      simp [_find_element_with_wait, hne2, hl]

/-- Witness for C5 at concrete inputs: with a backend resolving only
(By.id, "x"), the chain [("name", "q"), ("id", "x")] resolves to element 7
through the second locator after one failed attempt on the first, and a
chain whose single locator fails ends in the not-found error naming it. -/
theorem locator_fallback_chain_witness :
    ((_find_element envFindIdOnly
        { locators := [("name", "q"), ("id", "x")], timeout := Option.none }).1 =
      Except.ok 7) ∧
    ((_find_element envFindIdOnly
        { locators := [("name", "q"), ("id", "x")], timeout := Option.none }).2 =
      [⟨By.name, "q", 10, Cond.visibility⟩, ⟨By.id, "x", 10, Cond.visibility⟩]) ∧
    (_find_element_with_wait envFindIdOnly
        { locators := [("xpath", "p")], timeout := Option.none } Cond.presence =
      (Except.error (Err.noSuchElement
        ("Element not found with locators: " ++ locatorsRepr [("xpath", "p")])),
       [⟨By.xpath, "p", 10, Cond.presence⟩])) := by
  have h1 := locator_fallback_chain.1 envFindIdOnly
    { locators := [("name", "q"), ("id", "x")], timeout := Option.none }
    [("name", "q")] [] "id" "x" By.id 7 rfl (by decide) rfl (by decide)
  have h4 := locator_fallback_chain.2.2.2 envFindIdOnly
    { locators := [("xpath", "p")], timeout := Option.none } Cond.presence
    (by decide) (by decide)
  refine ⟨h1.1, ?_, ?_⟩
  · rw [h1.2.1]
    rfl
  · rw [h4]
    rfl

/-- Helper: the success continuation of a step always continues the loop,
leaves errors and total_actions unchanged, increments executed_actions,
and appends exactly one ActionResult whose success is bool(result) and
whose error field is untouched. -/
theorem stepSuccessPath_spec (env : OrchEnv) (idx : Nat) (d : ActionData) (res : Results)
    (c t0 : Nat) (ar0 : ActionResult) (v : PyVal) :
    ∃ ar st1, stepSuccessPath env idx d res c t0 ar0 v = StepOut.cont st1 ∧
      st1.res.actions = res.actions ++ [ar] ∧
      st1.res.errors = res.errors ∧
      st1.res.executed_actions = res.executed_actions + 1 ∧
      st1.res.total_actions = res.total_actions ∧
      ar.success = truthy v ∧ ar.error = ar0.error ∧ ar.index = ar0.index := by
  unfold stepSuccessPath
  simp only [tick]
  by_cases hsc : (truthy v && d.take_screenshot) = true
  · cases hshot : env.shot idx with
    | ok png =>
      simp only [hsc, if_true, hshot]
      exact ⟨_, _, rfl, rfl, by simp, by simp, by simp, by simp, by simp, by simp⟩
    | error e =>
      simp only [hsc, if_true, hshot]
      exact ⟨_, _, rfl, rfl, by simp, by simp, by simp, by simp, by simp, by simp⟩
  · simp only [hsc, if_false]
    exact ⟨_, _, rfl, rfl, by simp, by simp, by simp, by simp, by simp, by simp⟩

/-- Helper: the error continuation of a step never escapes: it appends one
entry to the script-level errors (timestamped two ticks after entry), and
one failed ActionResult carrying the message, leaves executed_actions and
total_actions unchanged, and breaks exactly when continue_on_error is the
explicit value false. -/
theorem stepErrorPath_spec (env : OrchEnv) (idx : Nat) (d : ActionData) (res : Results)
    (c t0 : Nat) (ar0 : ActionResult) (m : String) :
    ∃ ar st1,
      stepErrorPath env idx d res c t0 ar0 m =
        (if d.continue_on_error = some false then StepOut.brk st1 else StepOut.cont st1) ∧
      st1.res.actions = res.actions ++ [ar] ∧
      st1.res.errors = res.errors ++
        [({ action := ActionV.dict d, error := m, action_index := idx,
            timestamp := c + 2 } : ErrEntry)] ∧
      st1.res.executed_actions = res.executed_actions ∧
      st1.res.total_actions = res.total_actions ∧
      ar.success = false ∧ ar.error = some m ∧ ar.index = ar0.index := by
  unfold stepErrorPath
  simp only [tick]
  by_cases hco : d.continue_on_error = some false
  · cases hshot : env.errShot idx with
    | ok png =>
      simp only [hshot, hco, if_true]
      exact ⟨_, _, rfl, rfl, by simp, by simp, by simp, by simp, by simp, by simp⟩
    | error e =>
      simp only [hshot, hco, if_true]
      exact ⟨_, _, rfl, rfl, by simp, by simp, by simp, by simp, by simp, by simp⟩
  · cases hshot : env.errShot idx with
    | ok png =>
      simp only [hshot, hco, if_false]
      exact ⟨_, _, rfl, rfl, by simp, by simp, by simp, by simp, by simp, by simp⟩
    | error e =>
      simp only [hshot, hco, if_false]
      exact ⟨_, _, rfl, rfl, by simp, by simp, by simp, by simp, by simp, by simp⟩

/-- Helper: dispatch of a dict step with a known handler that returns. -/
theorem stepAction_dict_run_ok (env : OrchEnv) (idx : Nat) (d : ActionData)
    (st : LoopState) (v : PyVal) (hh : hasHandler d.type = true)
    (hrun : env.run idx = Except.ok v) :
    stepAction env idx (ActionV.dict d) st =
      stepSuccessPath env idx d st.res (st.clock + 1) st.clock (arInit idx d st.clock) v := by
  unfold stepAction
  simp [hh, hrun]

/-- Helper: dispatch of a dict step with a known handler that raises. -/
theorem stepAction_dict_run_err (env : OrchEnv) (idx : Nat) (d : ActionData)
    (st : LoopState) (e : Err) (hh : hasHandler d.type = true)
    (hrun : env.run idx = Except.error e) :
    stepAction env idx (ActionV.dict d) st =
      stepErrorPath env idx d st.res (st.clock + 1) st.clock (arInit idx d st.clock) e.msg := by
  unfold stepAction
  simp [hh, hrun]

/-- Helper: dispatch of a dict step with an unknown action type. -/
theorem stepAction_dict_no_handler (env : OrchEnv) (idx : Nat) (d : ActionData)
    (st : LoopState) (hh : hasHandler d.type = false) :
    stepAction env idx (ActionV.dict d) st =
      stepErrorPath env idx d st.res (st.clock + 1) st.clock (arInit idx d st.clock)
        ("No handler found for action type: " ++ typeStr d.type) := by
  unfold stepAction
  simp [hh]

/-- Helper: a loop step never changes total_actions. -/
theorem stepAction_state_total (env : OrchEnv) (idx : Nat) (a : ActionV) (st : LoopState) :
    (stepAction env idx a st).state.res.total_actions = st.res.total_actions := by
  cases a with
  | nonDict m => rfl
  | dict d =>
    cases hh : hasHandler d.type with
    | true =>
      cases hrun : env.run idx with
      | ok v =>
        obtain ⟨ar, st1, heq, hact, herr, hexec, htot, _⟩ :=
          stepSuccessPath_spec env idx d st.res (st.clock + 1) st.clock
            (arInit idx d st.clock) v
        rw [stepAction_dict_run_ok env idx d st v hh hrun, heq]
        exact htot
      | error e =>
        obtain ⟨ar, st1, heq, hact, herr, hexec, htot, _⟩ :=
          stepErrorPath_spec env idx d st.res (st.clock + 1) st.clock
            (arInit idx d st.clock) e.msg
        rw [stepAction_dict_run_err env idx d st e hh hrun, heq]
        split <;> exact htot
    | false =>
      obtain ⟨ar, st1, heq, hact, herr, hexec, htot, _⟩ :=
        stepErrorPath_spec env idx d st.res (st.clock + 1) st.clock
          (arInit idx d st.clock) ("No handler found for action type: " ++ typeStr d.type)
      rw [stepAction_dict_no_handler env idx d st hh, heq]
      split <;> exact htot

/-- Helper: the whole loop never changes total_actions. -/
theorem loop_total (env : OrchEnv) :
    ∀ (acts : List ActionV) (idx : Nat) (st : LoopState),
      ((loop env idx acts st).1).res.total_actions = st.res.total_actions := by
  intro acts
  induction acts with
  | nil => intro idx st; rfl
  | cons a rest ih =>
    intro idx st
    have hst := stepAction_state_total env idx a st
    cases h : stepAction env idx a st with
    | cont st1 =>
      rw [h] at hst
      simp only [loop, h]
      rw [ih (idx + 1) st1]
      exact hst
    | brk st1 =>
      rw [h] at hst
      simp only [loop, h]
      exact hst
    | esc st1 m =>
      rw [h] at hst
      simp only [loop, h]
      exact hst

/-- Claim C1: execute_script always hands back a structured result (in
particular with the script-derived total_actions accounting): a dict
action never escapes the per-step handling, whatever its handler does — a
handler-level error is converted into a script-level errors entry plus a
failed ActionResult — and when an exception does escape the per-step
handling (a non-dict action at line 108), the outer handler converts it
into a result with success false and the error field set, preserving the
partial actions, errors, executed_actions and screenshots accumulated so
far. -/
theorem execute_script_no_exception_escape :
    (∀ (env : OrchEnv) (script : Script),
       (execute_script env script).total_actions = script.actions.length) ∧
    (∀ (env : OrchEnv) (idx : Nat) (d : ActionData) (st : LoopState),
       (stepAction env idx (ActionV.dict d) st).isEsc = false) ∧
    (∀ (env : OrchEnv) (idx : Nat) (d : ActionData) (st : LoopState) (e : Err),
       hasHandler d.type = true → env.run idx = Except.error e →
       ∃ ts ar,
         (stepAction env idx (ActionV.dict d) st).state.res.errors =
           st.res.errors ++
             [({ action := ActionV.dict d, error := e.msg, action_index := idx,
                 timestamp := ts } : ErrEntry)] ∧
         (stepAction env idx (ActionV.dict d) st).state.res.actions =
           st.res.actions ++ [ar] ∧
         ar.success = false ∧ ar.error = some e.msg) ∧
    (∀ (env : OrchEnv) (script : Script) (m : String),
       (loopFor env script).2 = some m →
       (execute_script env script).success = false ∧
       (execute_script env script).error =
         some ("Unexpected error during script execution: " ++ m) ∧
       (execute_script env script).actions = ((loopFor env script).1).res.actions ∧
       (execute_script env script).errors = ((loopFor env script).1).res.errors ∧
       (execute_script env script).executed_actions =
         ((loopFor env script).1).res.executed_actions ∧
       (execute_script env script).screenshots =
         ((loopFor env script).1).res.screenshots) := by
  refine ⟨?_, ?_, ?_, ?_⟩
  · intro env script
    unfold execute_script
    cases hl : loopFor env script with
    | mk st esc =>
      have htot : st.res.total_actions = script.actions.length := by
        have h2 := loop_total env script.actions 1 (initState script)
        unfold loopFor at hl
        rw [hl] at h2
        exact h2
      cases esc with
      | none => simpa using htot
      | some m => simpa using htot
  · intro env idx d st
    cases hh : hasHandler d.type with
    | true =>
      cases hrun : env.run idx with
      | ok v =>
        obtain ⟨ar, st1, heq, _⟩ :=
          stepSuccessPath_spec env idx d st.res (st.clock + 1) st.clock
            (arInit idx d st.clock) v
        rw [stepAction_dict_run_ok env idx d st v hh hrun, heq]
        rfl
      | error e =>
        obtain ⟨ar, st1, heq, _⟩ :=
          stepErrorPath_spec env idx d st.res (st.clock + 1) st.clock
            (arInit idx d st.clock) e.msg
        rw [stepAction_dict_run_err env idx d st e hh hrun, heq]
        split <;> rfl
    | false =>
      obtain ⟨ar, st1, heq, _⟩ :=
        stepErrorPath_spec env idx d st.res (st.clock + 1) st.clock
          (arInit idx d st.clock) ("No handler found for action type: " ++ typeStr d.type)
      rw [stepAction_dict_no_handler env idx d st hh, heq]
      split <;> rfl
  · intro env idx d st e hh hrun
    obtain ⟨ar, st1, heq, hact, herr, hexec, htot, hsucc, harerr, _⟩ :=
      stepErrorPath_spec env idx d st.res (st.clock + 1) st.clock
        (arInit idx d st.clock) e.msg
    have hstep : stepAction env idx (ActionV.dict d) st =
        (if d.continue_on_error = some false then StepOut.brk st1 else StepOut.cont st1) := by
      rw [stepAction_dict_run_err env idx d st e hh hrun]
      exact heq
    refine ⟨st.clock + 3, ar, ?_, ?_, hsucc, harerr⟩
    · rw [hstep]
      split <;> exact herr
    · rw [hstep]
      split <;> exact hact
  · intro env script m hesc
    unfold execute_script
    cases hl : loopFor env script with
    | mk st esc =>
      rw [hl] at hesc
      simp only at hesc
      subst hesc
      simp

/-- Witness for C1 at concrete inputs: a wait action whose handler raises
produces an errors entry and a failed ActionResult; a script whose single
action is a non-dict value escapes the loop and is converted into a
structured failure result. -/
theorem execute_script_no_exception_escape_witness :
    (∃ ts ar,
      (stepAction envRunFail1 1 (ActionV.dict waitActionData)
          (initState scriptOneWait)).state.res.errors =
        (initState scriptOneWait).res.errors ++
          [({ action := ActionV.dict waitActionData, error := "session crashed",
              action_index := 1, timestamp := ts } : ErrEntry)] ∧
      (stepAction envRunFail1 1 (ActionV.dict waitActionData)
          (initState scriptOneWait)).state.res.actions =
        (initState scriptOneWait).res.actions ++ [ar] ∧
      ar.success = false ∧ ar.error = some "session crashed") ∧
    (execute_script envRunOk scriptNonDict).success = false ∧
    (execute_script envRunOk scriptNonDict).error =
      some ("Unexpected error during script execution: " ++
        "str object has no attribute get") := by
  constructor
  · exact execute_script_no_exception_escape.2.2.1 envRunFail1 1 waitActionData
      (initState scriptOneWait) (Err.webDriver "session crashed") (by decide) rfl
  · have h := execute_script_no_exception_escape.2.2.2 envRunOk scriptNonDict
      "str object has no attribute get" rfl
    exact ⟨h.1, h.2.1⟩

/-- Claim C2, counterexample: the biconditional "success iff errors is
empty" does not hold on the outer exception path. A script whose single
action element is not a dict raises at line 108 before any error entry is
recorded: the outer handler reports success = False while errors is still
empty. -/
theorem success_iff_errors_empty_cex :
    (execute_script envRunOk scriptNonDict).success = false ∧
    (execute_script envRunOk scriptNonDict).errors = [] ∧
    ¬ ((execute_script envRunOk scriptNonDict).success = true ↔
       (execute_script envRunOk scriptNonDict).errors = []) := by
  refine ⟨by decide, by decide, by decide⟩

/-- Claim C2 (amended): on every normal-completion return path of
execute_script (including an early stop through continue_on_error =
false) success is true iff the errors list is empty; on the outer
exception path success is unconditionally false, even when errors is
still empty. -/
theorem success_iff_errors_empty_amended :
    (∀ (env : OrchEnv) (script : Script),
       (loopFor env script).2 = Option.none →
       ((execute_script env script).success = true ↔
        (execute_script env script).errors = [])) ∧
    (∀ (env : OrchEnv) (script : Script) (m : String),
       (loopFor env script).2 = some m →
       (execute_script env script).success = false) := by
  constructor
  · intro env script hesc
    unfold execute_script
    cases hl : loopFor env script with
    | mk st esc =>
      rw [hl] at hesc
      simp only at hesc
      subst hesc
      simp [List.isEmpty_iff]
  · intro env script m hesc
    unfold execute_script
    cases hl : loopFor env script with
    | mk st esc =>
      rw [hl] at hesc
      simp only at hesc
      subst hesc
      simp

/-- Witness for the amended C2 at concrete inputs: an empty script
completes normally with the biconditional holding, and the non-dict
script takes the outer exception path with success false. -/
theorem success_iff_errors_empty_amended_witness :
    ((execute_script envRunOk scriptEmpty).success = true ↔
     (execute_script envRunOk scriptEmpty).errors = []) ∧
    (execute_script envRunOk scriptNonDict).success = false :=
  ⟨success_iff_errors_empty_amended.1 envRunOk scriptEmpty rfl,
   success_iff_errors_empty_amended.2 envRunOk scriptNonDict
     "str object has no attribute get" rfl⟩

/-- Claim C3: a failing dict action whose continue_on_error is unset
continues the loop (the default behaves as true); a failing action with
continue_on_error explicitly false breaks the loop: the remaining actions
are never processed (the loop result does not depend on them), exactly
one ActionResult — the failing one — is appended, and executed_actions is
unchanged (neither the failing action nor the unreached ones count). -/
theorem continue_on_error_policy :
    (∀ (env : OrchEnv) (idx : Nat) (d : ActionData) (st : LoopState),
       d.continue_on_error = Option.none →
       stepRaises env idx d = true →
       (stepAction env idx (ActionV.dict d) st).isCont = true) ∧
    (∀ (env : OrchEnv) (idx : Nat) (d : ActionData) (st : LoopState),
       d.continue_on_error = some false →
       stepRaises env idx d = true →
       (∀ rest, loop env idx (ActionV.dict d :: rest) st =
          ((stepAction env idx (ActionV.dict d) st).state, Option.none)) ∧
       (∃ ar, (stepAction env idx (ActionV.dict d) st).state.res.actions =
          st.res.actions ++ [ar] ∧ ar.index = idx ∧ ar.success = false) ∧
       (stepAction env idx (ActionV.dict d) st).state.res.executed_actions =
         st.res.executed_actions) := by
  constructor
  · intro env idx d st hco hraise
    cases hh : hasHandler d.type with
    | true =>
      cases hrun : env.run idx with
      | ok v =>
        unfold stepRaises at hraise
        simp [hh, hrun] at hraise
      | error e =>
        obtain ⟨ar, st1, heq, _⟩ :=
          stepErrorPath_spec env idx d st.res (st.clock + 1) st.clock
            (arInit idx d st.clock) e.msg
        rw [stepAction_dict_run_err env idx d st e hh hrun, heq,
          if_neg (by simp [hco])]
        rfl
    | false =>
      obtain ⟨ar, st1, heq, _⟩ :=
        stepErrorPath_spec env idx d st.res (st.clock + 1) st.clock
          (arInit idx d st.clock) ("No handler found for action type: " ++ typeStr d.type)
      rw [stepAction_dict_no_handler env idx d st hh, heq, if_neg (by simp [hco])]
      rfl
  · intro env idx d st hco hraise
    have key : ∀ m, stepErrorPath env idx d st.res (st.clock + 1) st.clock
          (arInit idx d st.clock) m = stepAction env idx (ActionV.dict d) st →
        (∀ rest, loop env idx (ActionV.dict d :: rest) st =
           ((stepAction env idx (ActionV.dict d) st).state, Option.none)) ∧
        (∃ ar, (stepAction env idx (ActionV.dict d) st).state.res.actions =
           st.res.actions ++ [ar] ∧ ar.index = idx ∧ ar.success = false) ∧
        (stepAction env idx (ActionV.dict d) st).state.res.executed_actions =
          st.res.executed_actions := by
      intro m hdisp
      obtain ⟨ar, st1, heq, hact, herr, hexec, htot, hsucc, harerr, harind⟩ :=
        stepErrorPath_spec env idx d st.res (st.clock + 1) st.clock
          (arInit idx d st.clock) m
      rw [if_pos hco] at heq
      have hstep : stepAction env idx (ActionV.dict d) st = StepOut.brk st1 := by
        rw [← hdisp]
        exact heq
      refine ⟨?_, ⟨ar, ?_, harind, hsucc⟩, ?_⟩
      · intro rest
        simp only [loop, hstep]
        rfl
      · rw [hstep]
        exact hact
      · rw [hstep]
        exact hexec
    cases hh : hasHandler d.type with
    | true =>
      cases hrun : env.run idx with
      | ok v =>
        unfold stepRaises at hraise
        simp [hh, hrun] at hraise
      | error e =>
        exact key e.msg (stepAction_dict_run_err env idx d st e hh hrun).symm
    | false =>
      exact key ("No handler found for action type: " ++ typeStr d.type)
        (stepAction_dict_no_handler env idx d st hh).symm

/-- Witness for C3 at concrete inputs: a failing wait action with the
flag unset continues, and one with the flag false breaks: the loop over
it and a second action ends right after the failing step. -/
theorem continue_on_error_policy_witness :
    ((stepAction envRunFail1 1 (ActionV.dict waitActionData)
        (initState scriptOneWait)).isCont = true) ∧
    (loop envRunFail1 1 [ActionV.dict waitActionStop, ActionV.dict waitActionData]
        (initState scriptOneWait) =
      ((stepAction envRunFail1 1 (ActionV.dict waitActionStop)
          (initState scriptOneWait)).state, Option.none)) := by
  constructor
  · exact continue_on_error_policy.1 envRunFail1 1 waitActionData
      (initState scriptOneWait) rfl (by decide)
  · exact (continue_on_error_policy.2 envRunFail1 1 waitActionStop
      (initState scriptOneWait) rfl (by decide)).1 [ActionV.dict waitActionData]

/-- Claim C10: a handler that returns a falsy value without raising (as
execute_in_frame and wait_for_jquery do, returning None) yields a step
that continues, records an ActionResult with success false and error
null, adds no script-level errors entry, and still increments
executed_actions; a one-action script of this shape completes with
overall success true. -/
theorem falsy_handler_result_policy :
    (∀ (env : OrchEnv) (idx : Nat) (d : ActionData) (st : LoopState) (v : PyVal),
       hasHandler d.type = true → env.run idx = Except.ok v → truthy v = false →
       (stepAction env idx (ActionV.dict d) st).isCont = true ∧
       (stepAction env idx (ActionV.dict d) st).state.res.errors = st.res.errors ∧
       (stepAction env idx (ActionV.dict d) st).state.res.executed_actions =
         st.res.executed_actions + 1 ∧
       ∃ ar, (stepAction env idx (ActionV.dict d) st).state.res.actions =
         st.res.actions ++ [ar] ∧ ar.success = false ∧ ar.error = Option.none) ∧
    (∀ (env : OrchEnv) (script : Script) (d : ActionData) (v : PyVal),
       script.actions = [ActionV.dict d] → hasHandler d.type = true →
       env.run 1 = Except.ok v → truthy v = false →
       (execute_script env script).success = true ∧
       (execute_script env script).errors = [] ∧
       (execute_script env script).executed_actions = 1 ∧
       ∃ ar, (execute_script env script).actions = [ar] ∧ ar.success = false ∧
         ar.error = Option.none) := by
  constructor
  · intro env idx d st v hh hrun hfalsy
    obtain ⟨ar, st1, heq, hact, herr, hexec, htot, hsucc, harerr, harind⟩ :=
      stepSuccessPath_spec env idx d st.res (st.clock + 1) st.clock
        (arInit idx d st.clock) v
    rw [stepAction_dict_run_ok env idx d st v hh hrun, heq]
    exact ⟨rfl, herr, hexec, ⟨ar, hact, hsucc.trans hfalsy, harerr⟩⟩
  · intro env script d v hacts hh hrun hfalsy
    obtain ⟨ar, st1, heq, hact, herr, hexec, htot, hsucc, harerr, harind⟩ :=
      stepSuccessPath_spec env 1 d (initState script).res ((initState script).clock + 1)
        (initState script).clock (arInit 1 d (initState script).clock) v
    have hstep : stepAction env 1 (ActionV.dict d) (initState script) = StepOut.cont st1 := by
      rw [stepAction_dict_run_ok env 1 d (initState script) v hh hrun]
      exact heq
    have hloop : loopFor env script = (st1, Option.none) := by
      unfold loopFor
      rw [hacts]
      simp only [loop, hstep]
    have hie : (initState script).res.errors = [] := rfl
    have hia : (initState script).res.actions = [] := rfl
    have hix : (initState script).res.executed_actions = 0 := rfl
    unfold execute_script
    rw [hloop]
    refine ⟨?_, ?_, ?_, ⟨ar, ?_, hsucc.trans hfalsy, harerr⟩⟩
    · simp [herr, hie]
    · simp [herr, hie]
    · simp [hexec, hix]
    · simp [hact, hia]

/-- Witness for C10 at concrete inputs: a one-action script whose
execute_in_frame handler returns None completes with the step recorded
as failed (error null), executed_actions 1, no errors, and overall
success true. -/
theorem falsy_handler_result_policy_witness :
    (execute_script envRunNone scriptOneFrame).success = true ∧
    (execute_script envRunNone scriptOneFrame).errors = [] ∧
    (execute_script envRunNone scriptOneFrame).executed_actions = 1 ∧
    ∃ ar, (execute_script envRunNone scriptOneFrame).actions = [ar] ∧
      ar.success = false ∧ ar.error = Option.none :=
  falsy_handler_result_policy.2 envRunNone scriptOneFrame frameActionData PyVal.none
    rfl (by decide) rfl rfl

end AutomationBrowser
